import Mathlib

/-!
Shallow embedding of `modules/video_capture.py`: a video-capture wrapper that
probes a prioritized list of (device index, backend) pairs, degrades to a
black-frame dummy source when no camera opens, and exposes read / release /
set-callback operations.

Modelling conventions:
* A frame (numpy `ndarray` of shape height x width x 3, dtype uint8) is a
  nested list of channel values.
* The opaque cv2 capture handle is `RealCam`: an `opened` flag plus a stream
  of read outcomes (`none` = a failed read), consumed by position.
* `cv2.VideoCapture(dev_id, backend)` is the environment function `openCam`;
  a thrown exception is `Except.error`.
* Python exceptions escaping a method are `Except.error` in its result type;
  the error value carries the object state at the moment of propagation
  (Python mutates `self` in place, so the caller observes that state).
* Callback invocations performed during `read` are recorded in a list, so
  that "the callback fires exactly once with frame f" is the log `[f]`.
* The `threading.Event` field `_frame_ready` is declared in the source but
  never signaled or waited on; it carries no information and is omitted.
* `cap.set` configuration calls are advisory in the source (results ignored);
  the handle model does not track configuration, so `set` leaves the handle
  unchanged, returning `True` exactly as `DummyCamera.set` does.
-/

namespace VideoCapture

/-- One decoded image buffer: rows of pixels of channel values. -/
abbrev Frame : Type := List (List (List Nat))

/-- `np.zeros((height, width, 3), dtype=np.uint8)`. -/
def npZeros (height width : Nat) : Frame :=
  List.replicate height (List.replicate width (List.replicate 3 0))

/-- The frame has shape height x width x 3, every channel an 8-bit zero. -/
def IsZeroFrame (height width : Nat) (f : Frame) : Prop :=
  f.length = height ∧
  ∀ row ∈ f, row.length = width ∧
    ∀ px ∈ row, px.length = 3 ∧ ∀ v ∈ px, v = 0 ∧ v < 256

/-- `class DummyCamera`: a dummy camera that returns a black frame. -/
structure DummyCamera where
  width : Nat
  height : Nat
  is_open : Bool
deriving Repr

def DummyCamera.isOpened (d : DummyCamera) : Bool := d.is_open

/-- `DummyCamera.read`: always `(True, black frame)`. -/
def DummyCamera.read (d : DummyCamera) : Bool × Frame :=
  (true, npZeros d.height d.width)

/-- `DummyCamera.set`: dummy implementation, returns `True`. -/
def DummyCamera.set (_d : DummyCamera) (_prop _value : Nat) : Bool := true

def DummyCamera.release (d : DummyCamera) : DummyCamera :=
  { d with is_open := false }

/-- The cv2 backend constants used by the source. -/
inductive Backend
  | cap_dshow
  | cap_any
  | cap_avfoundation
deriving DecidableEq, Repr

/-- Opaque cv2 capture handle: an opened flag and a stream of read
outcomes (`none` at position n = the n-th read fails). -/
structure RealCam where
  opened : Bool
  frames : Nat → Option Frame
  pos : Nat

def RealCam.isOpened (c : RealCam) : Bool := c.opened

/-- cv2 `cap.read()`: success is coupled with a valid frame
(`ret == True` iff a frame is produced). -/
def RealCam.read (c : RealCam) : Option Frame × RealCam :=
  (c.frames c.pos, { c with pos := c.pos + 1 })

def RealCam.release (c : RealCam) : RealCam := { c with opened := false }

/-- The handle held in `self.cap`: a real device or the dummy source. -/
inductive Cap
  | real (c : RealCam)
  | dummy (d : DummyCamera)

def Cap.isOpened : Cap → Bool
  | .real c => c.isOpened
  | .dummy d => d.isOpened

/-- `self.cap.read()`, returning `some frame` on success. -/
def Cap.read : Cap → Option Frame × Cap
  | .real c =>
    let (r, c') := RealCam.read c
    (r, .real c')
  | .dummy d =>
    let (ret, f) := DummyCamera.read d
    (if ret then some f else none, .dummy d)

/-- `self.cap.set(prop, value)`: advisory; handle state is not affected. -/
def Cap.set : Cap → Nat → Nat → Bool × Cap
  | .real c, _, _ => (true, .real c)
  | .dummy d, p, v => (DummyCamera.set d p v, .dummy d)

def Cap.release : Cap → Cap
  | .real c => .real c.release
  | .dummy d => .dummy d.release

inductive Platform
  | windows
  | other
deriving DecidableEq, Repr

/-- The external collaborators: the host platform, the Windows device
enumeration (`FilterGraph.get_input_devices()` length), and the cv2
constructor (`Except.error` = the constructor throws). -/
structure Env where
  platform : Platform
  numDevices : Nat
  openCam : Int → Backend → Except Unit RealCam

/-- The `ValueError` raised by the constructor for an invalid device index. -/
inductive ConstructError
  | invalidDevice
deriving DecidableEq, Repr

/-- State of `class VideoCapturer` (the unused `_frame_ready` event and the
Windows `graph` object are omitted; a registered callback is a function
returning `none` when its invocation raises). -/
structure VideoCapturer where
  device_index : Int
  frame_callback : Option (Frame → Option Unit)
  _current_frame : Option Frame
  is_running : Bool
  cap : Option Cap

/-- `VideoCapturer.__init__(device_index)`: on Windows, enumerate devices and
raise if `device_index >= len(devices)`; elsewhere no validation. -/
def VideoCapturer.init (env : Env) (device_index : Int) :
    Except ConstructError VideoCapturer :=
  let c : VideoCapturer :=
    { device_index := device_index
      frame_callback := none
      _current_frame := none
      is_running := false
      cap := none }
  if env.platform = Platform.windows then
    if device_index ≥ (env.numDevices : Int) then
      .error ConstructError.invalidDevice
    else
      .ok c
  else
    .ok c

/-- The `capture_methods` candidate list built inside `start`. -/
def captureMethods (p : Platform) (device_index : Int) : List (Int × Backend) :=
  match p with
  | .windows =>
    [(device_index, .cap_dshow),
     (device_index, .cap_any),
     (-1, .cap_any),
     (0, .cap_any)]
  | .other =>
    [(device_index, .cap_any),
     (device_index, .cap_avfoundation),
     (0, .cap_any),
     (0, .cap_avfoundation)]

/-- The probe loop of `start`: for each candidate, try to construct a
capture; a thrown constructor exception is caught and skipped (the held
handle unchanged); a constructed but unopened handle is released and kept
in `self.cap`; the first opened handle stops the scan. -/
def probeLoop (env : Env) : List (Int × Backend) → Option Cap → Option Cap
  | [], cap => cap
  | (dev_id, backend) :: rest, cap =>
    match env.openCam dev_id backend with
    | .error _ => probeLoop env rest cap
    | .ok rc =>
      if rc.opened then some (Cap.real rc)
      else probeLoop env rest (some (Cap.real rc.release))

/-- `VideoCapturer.start(width, height, fps)`: run the probe loop; if the
held handle is absent or unopened, install a `DummyCamera(width, height)`;
apply the advisory configuration; set `is_running` and return `True`.
Every probe failure is handled inside `probeLoop`, so the body never
raises and the outer `except` branch (returning `False`) is dead. -/
def VideoCapturer.start (env : Env) (c : VideoCapturer)
    (width height fps : Nat) : Bool × VideoCapturer :=
  let cap0 := probeLoop env (captureMethods env.platform c.device_index) c.cap
  let cap1 : Cap :=
    match cap0 with
    | none => Cap.dummy { width := width, height := height, is_open := true }
    | some cp =>
      if cp.isOpened then cp
      else Cap.dummy { width := width, height := height, is_open := true }
  let (_, cap2) := Cap.set cap1 3 width
  let (_, cap3) := Cap.set cap2 4 height
  let (_, cap4) := Cap.set cap3 5 fps
  (true, { c with cap := some cap4, is_running := true })

/-- `VideoCapturer.read()`. The `ok` result is `((ret, frame), new state,
callback log)`; `error` means the registered callback raised, carrying the
state at propagation and the log. -/
def VideoCapturer.read (c : VideoCapturer) :
    Except (VideoCapturer × List Frame)
      ((Bool × Option Frame) × VideoCapturer × List Frame) :=
  if !c.is_running then
    .ok ((false, none), c, [])
  else
    match c.cap with
    | none => .ok ((false, none), c, [])
    | some cp =>
      match Cap.read cp with
      | (some f, cp') =>
        match c.frame_callback with
        | none =>
          .ok ((true, some f),
            { c with cap := some cp', _current_frame := some f }, [])
        | some cb =>
          match cb f with
          | some _ =>
            .ok ((true, some f),
              { c with cap := some cp', _current_frame := some f }, [f])
          | none =>
            .error ({ c with cap := some cp', _current_frame := some f }, [f])
      | (none, cp') => .ok ((false, none), { c with cap := some cp' }, [])

/-- `VideoCapturer.release()`: no-op unless running with a handle; the
returned flag records whether the underlying handle release was invoked. -/
def VideoCapturer.release (c : VideoCapturer) : VideoCapturer × Bool :=
  match c.is_running, c.cap with
  | true, some cp =>
    let _released := Cap.release cp
    ({ c with is_running := false, cap := none }, true)
  | _, _ => (c, false)

/-- `VideoCapturer.set_frame_callback(callback)`. -/
def VideoCapturer.set_frame_callback (c : VideoCapturer)
    (cb : Frame → Option Unit) : VideoCapturer :=
  { c with frame_callback := some cb }

/-- States reachable by sequences of the public operations, under any
sequence of environments and callbacks. -/
inductive Reachable : VideoCapturer → Prop
  | construct (env : Env) (i : Int) (c : VideoCapturer) :
      VideoCapturer.init env i = .ok c → Reachable c
  | start (env : Env) (w h fps : Nat) (c : VideoCapturer) :
      Reachable c → Reachable (VideoCapturer.start env c w h fps).2
  | read_ok (c c' : VideoCapturer) (r : Bool × Option Frame)
      (log : List Frame) :
      Reachable c → VideoCapturer.read c = .ok (r, c', log) → Reachable c'
  | read_raise (c c' : VideoCapturer) (log : List Frame) :
      Reachable c → VideoCapturer.read c = .error (c', log) → Reachable c'
  | release (c : VideoCapturer) :
      Reachable c → Reachable (VideoCapturer.release c).1
  | set_cb (c : VideoCapturer) (cb : Frame → Option Unit) :
      Reachable c → Reachable (VideoCapturer.set_frame_callback c cb)

/-- A probe candidate fails: the constructor throws, or the handle it
returns is not opened. -/
def probeFails (env : Env) (ib : Int × Backend) : Prop :=
  match env.openCam ib.1 ib.2 with
  | .error _ => True
  | .ok rc => rc.opened = false

/-- Modelled from the spec: the platform preferred native backend
(DirectShow on Windows, AVFoundation on macOS), used to compare the
probe list against the shape the spec describes. -/
def specNativeBackend : Platform → Backend
  | .windows => .cap_dshow
  | .other => .cap_avfoundation

/-- Modelled from the spec: the generic / auto backend. -/
def specGenericBackend : Backend := .cap_any

/-- n successive `read()` calls: the list of `(ret, frame)` results and the
final state, or `none` if some read propagated a callback exception. -/
def readTrace : Nat → VideoCapturer → Option (List (Bool × Option Frame) × VideoCapturer)
  | 0, c => some ([], c)
  | n + 1, c =>
    match VideoCapturer.read c with
    | .ok (r, c', _) =>
      match readTrace n c' with
      | some (rs, c'') => some (r :: rs, c'')
      | none => none
    | .error _ => none

/-- Test environment: a non-Windows host where every cv2 constructor call
throws (no camera can be opened). -/
def envNoCam : Env :=
  { platform := Platform.other
    numDevices := 0
    openCam := fun _ _ => .error () }

/-- Test environment: a Windows host enumerating 2 devices. -/
def envWin2 : Env :=
  { platform := Platform.windows
    numDevices := 2
    openCam := fun _ _ => .error () }

/-- Test environment: a Windows host where the DirectShow probe throws and
every other probe returns an unopened handle. -/
def envMixed : Env :=
  { platform := Platform.windows
    numDevices := 1
    openCam := fun _ b =>
      if b = Backend.cap_dshow then .error ()
      else .ok { opened := false, frames := fun _ => none, pos := 0 } }

/-- Test state: a freshly constructed capturer for device index 0. -/
def cW : VideoCapturer :=
  { device_index := 0
    frame_callback := none
    _current_frame := none
    is_running := false
    cap := none }

/-- Test state: a running capturer holding a 4 x 3 dummy source. -/
def cRun : VideoCapturer :=
  { device_index := 0
    frame_callback := none
    _current_frame := none
    is_running := true
    cap := some (Cap.dummy { width := 4, height := 3, is_open := true }) }

/-- Test state: `cRun` with a callback that returns normally. -/
def cCb : VideoCapturer :=
  { cRun with frame_callback := some (fun _ => some ()) }

/-- Test state: `cRun` with a callback that raises. -/
def cRaise : VideoCapturer :=
  { cRun with frame_callback := some (fun _ => none) }

/-- Test state: a running capturer whose real device fails every read. -/
def cFail : VideoCapturer :=
  { device_index := 0
    frame_callback := none
    _current_frame := some (npZeros 1 1)
    is_running := true
    cap := some (Cap.real { opened := true, frames := fun _ => none, pos := 0 }) }

/-- The constructed record produced by a successful `__init__`. -/
def freshCapturer (device_index : Int) : VideoCapturer :=
  { device_index := device_index
    frame_callback := none
    _current_frame := none
    is_running := false
    cap := none }

/-- Claim C2 counterexample: on a Windows host enumerating 2 devices,
construction with the negative index -1 succeeds, although the claim
says every negative index fails with InvalidDevice (the source checks
only `device_index >= len(devices)`). -/
theorem c2_counterexample :
    VideoCapturer.init envWin2 (-1) = .ok (freshCapturer (-1)) := rfl

/-- Claim C2 (amended): on a platform with device enumeration,
construction fails with InvalidDevice exactly when the index is at least
the device count; every smaller index, negative ones included, succeeds. -/
theorem c2_init_checks_upper_bound_only (env : Env) (i : Int)
    (hw : env.platform = Platform.windows) :
    ((env.numDevices : Int) ≤ i →
      VideoCapturer.init env i = .error ConstructError.invalidDevice) ∧
    (i < (env.numDevices : Int) →
      VideoCapturer.init env i = .ok (freshCapturer i)) := by
  unfold VideoCapturer.init freshCapturer
  rw [if_pos hw]
  constructor
  · intro h
    rw [if_pos h]
  · intro h
    rw [if_neg (by omega)]

/-- Witness for C2: with 2 enumerated devices, index 5 fails and index 1
succeeds. -/
theorem c2_witness :
    VideoCapturer.init envWin2 5 = .error ConstructError.invalidDevice ∧
    VideoCapturer.init envWin2 1 = .ok (freshCapturer 1) :=
  ⟨(c2_init_checks_upper_bound_only envWin2 5 rfl).1 (by decide),
   (c2_init_checks_upper_bound_only envWin2 1 rfl).2 (by decide)⟩

/-- Claim C4 counterexample: on the non-Windows platform the first probe
candidate pairs the requested index with the generic backend, not with the
platform preferred native backend (AVFoundation) as the claim states. -/
theorem c4_counterexample :
    (captureMethods Platform.other 1).head? ≠
      some (1, specNativeBackend Platform.other) ∧
    (captureMethods Platform.other 1).head? = some (1, specGenericBackend) := by
  constructor
  · decide
  · decide

/-- Claim C4 (amended): on Windows the probe list has the claimed shape —
requested index with the native backend, then with the generic backend,
then the -1 sentinel and index 0 with the generic backend. On other
platforms the first two candidates use the requested index with the
generic backend first and the native backend second, and the fallbacks
are index 0 with those same two backends, with no -1 sentinel. -/
theorem c4_probe_list_shape (i : Int) :
    captureMethods Platform.windows i =
      [(i, specNativeBackend Platform.windows), (i, specGenericBackend),
       (-1, specGenericBackend), (0, specGenericBackend)] ∧
    captureMethods Platform.other i =
      [(i, specGenericBackend), (i, specNativeBackend Platform.other),
       (0, specGenericBackend), (0, specNativeBackend Platform.other)] :=
  ⟨rfl, rfl⟩

/-- Claim C3: a probe whose constructor throws is skipped with the held
handle untouched; a probe that returns an unopened handle releases it and
the scan continues; and `start` never propagates an exception — it returns
`True` (first component) for every environment and state. -/
theorem c3_probe_isolation (env : Env) (i : Int) (b : Backend)
    (rest : List (Int × Backend)) (cap0 : Option Cap) :
    (∀ e : Unit, env.openCam i b = .error e →
      probeLoop env ((i, b) :: rest) cap0 = probeLoop env rest cap0) ∧
    (∀ rc : RealCam, env.openCam i b = .ok rc → rc.opened = false →
      probeLoop env ((i, b) :: rest) cap0 =
        probeLoop env rest (some (Cap.real (RealCam.release rc))) ∧
      Cap.isOpened (Cap.real (RealCam.release rc)) = false) ∧
    (∀ (c : VideoCapturer) (w h fps : Nat),
      (VideoCapturer.start env c w h fps).1 = true) := by
  refine ⟨?_, ?_, ?_⟩
  · intro e he
    simp only [probeLoop, he]
  · intro rc hrc hop
    constructor
    · simp only [probeLoop, hrc, hop]
      simp
    · simp [Cap.isOpened, RealCam.isOpened, RealCam.release]
  · intro c w h fps
    rfl

/-- Witness for C3: on `envMixed` the DirectShow probe throws and is
skipped; the generic probe yields an unopened handle that is released. -/
theorem c3_witness :
    probeLoop envMixed ((0, Backend.cap_dshow) :: [(0, Backend.cap_any)]) none =
      probeLoop envMixed [(0, Backend.cap_any)] none ∧
    (VideoCapturer.start envMixed cW 4 3 60).1 = true :=
  ⟨(c3_probe_isolation envMixed 0 Backend.cap_dshow [(0, Backend.cap_any)] none).1 () rfl,
   (c3_probe_isolation envMixed 0 Backend.cap_dshow [] none).2.2 cW 4 3 60⟩

/-- Claim C5: with a callback registered (and returning normally), a
successful `read` stores the frame as the last frame, invokes the callback
exactly once with that same frame (the log is `[f]`) before returning, and
returns `(True, f)`. -/
theorem c5_callback_once_same_frame (c : VideoCapturer) (cp cp' : Cap)
    (cb : Frame → Option Unit) (f : Frame)
    (hr : c.is_running = true) (hc : c.cap = some cp)
    (hcb : c.frame_callback = some cb)
    (hread : Cap.read cp = (some f, cp'))
    (hok : cb f = some ()) :
    VideoCapturer.read c =
      .ok ((true, some f),
        { c with cap := some cp', _current_frame := some f }, [f]) := by
  unfold VideoCapturer.read
  rw [hr]
  simp only [Bool.not_true, Bool.false_eq_true, if_false]
  rw [hc]
  simp only [hread, hcb, hok]

/-- Witness for C5: the running dummy capturer with a normal callback. -/
theorem c5_witness :
    VideoCapturer.read cCb =
      .ok ((true, some (npZeros 3 4)),
        { cCb with
            cap := some (Cap.dummy { width := 4, height := 3, is_open := true })
            _current_frame := some (npZeros 3 4) }, [npZeros 3 4]) :=
  c5_callback_once_same_frame cCb
    (Cap.dummy { width := 4, height := 3, is_open := true })
    (Cap.dummy { width := 4, height := 3, is_open := true })
    (fun _ => some ()) (npZeros 3 4) rfl rfl rfl rfl rfl

/-- Claim C6: when the underlying read fails while running, `read` returns
`(False, None)`, the last frame, the running flag, the callback and the
device index are unchanged, and the callback log is empty. -/
theorem c6_failed_read_preserves_state (c : VideoCapturer) (cp cp' : Cap)
    (hr : c.is_running = true) (hc : c.cap = some cp)
    (hread : Cap.read cp = (none, cp')) :
    VideoCapturer.read c = .ok ((false, none), { c with cap := some cp' }, []) ∧
    ({ c with cap := some cp' } : VideoCapturer)._current_frame = c._current_frame ∧
    ({ c with cap := some cp' } : VideoCapturer).is_running = c.is_running ∧
    ({ c with cap := some cp' } : VideoCapturer).frame_callback = c.frame_callback ∧
    ({ c with cap := some cp' } : VideoCapturer).device_index = c.device_index := by
  refine ⟨?_, rfl, rfl, rfl, rfl⟩
  unfold VideoCapturer.read
  rw [hr]
  simp only [Bool.not_true, Bool.false_eq_true, if_false]
  rw [hc]
  simp only [hread]

/-- Witness for C6: a running capturer whose device fails every read. -/
theorem c6_witness :
    VideoCapturer.read cFail =
      .ok ((false, none),
        { cFail with cap := some (Cap.real { opened := true, frames := fun _ => none, pos := 1 }) },
        []) :=
  (c6_failed_read_preserves_state cFail
    (Cap.real { opened := true, frames := fun _ => none, pos := 0 })
    (Cap.real { opened := true, frames := fun _ => none, pos := 1 })
    rfl rfl rfl).1

/-- Claim C7: `read` returns `(False, None)` with the state untouched and
no device access whenever the capturer is not running or holds no handle;
in particular this holds for the state left by `release()` from any prior
state. -/
theorem c7_read_when_stopped (c : VideoCapturer) :
    ((c.is_running = false ∨ c.cap = none) →
      VideoCapturer.read c = .ok ((false, none), c, [])) ∧
    VideoCapturer.read (VideoCapturer.release c).1 =
      .ok ((false, none), (VideoCapturer.release c).1, []) := by
  obtain ⟨di, fcb, cf, runb, capo⟩ := c
  constructor
  · intro h
    cases runb with
    | false => rfl
    | true =>
      cases capo with
      | none => rfl
      | some cp => rcases h with h | h <;> simp at h
  · cases runb <;> cases capo <;> rfl

/-- Witness for C7: reading after releasing the running dummy capturer. -/
theorem c7_witness :
    VideoCapturer.read (VideoCapturer.release cRun).1 =
      .ok ((false, none), (VideoCapturer.release cRun).1, []) :=
  (c7_read_when_stopped cRun).2

/-- Claim C8: `release` is a no-op when not running; when running (with
the handle the reachability invariant guarantees) it releases the handle,
clears it and stops; and a second `release` from any state is a no-op that
does not release a handle again (second component `false`). -/
theorem c8_release_idempotent (c : VideoCapturer)
    (hInv : c.is_running = true → c.cap ≠ none) :
    (c.is_running = false → VideoCapturer.release c = (c, false)) ∧
    (c.is_running = true →
      VideoCapturer.release c =
        ({ c with is_running := false, cap := none }, true)) ∧
    VideoCapturer.release (VideoCapturer.release c).1 =
      ((VideoCapturer.release c).1, false) := by
  obtain ⟨di, fcb, cf, runb, capo⟩ := c
  refine ⟨?_, ?_, ?_⟩
  · intro h
    cases runb with
    | false => rfl
    | true => simp at h
  · intro h
    cases runb with
    | false => simp at h
    | true =>
      cases capo with
      | none => exact absurd rfl (hInv h)
      | some cp => rfl
  · cases runb <;> cases capo <;> rfl

/-- Witness for C8: releasing the running dummy capturer once stops it;
a second release is a no-op with no second handle release. -/
theorem c8_witness :
    VideoCapturer.release cRun =
      ({ cRun with is_running := false, cap := none }, true) ∧
    VideoCapturer.release (VideoCapturer.release cRun).1 =
      ((VideoCapturer.release cRun).1, false) :=
  ⟨(c8_release_idempotent cRun (fun _ h => Option.noConfusion h)).2.1 rfl,
   (c8_release_idempotent cRun (fun _ h => Option.noConfusion h)).2.2⟩

/-- Claim C10: when the registered callback raises during a successful
read, the exception propagates out of `read` (the `error` result), the
callback was invoked once with the frame, and the escaping state already
has the last frame updated to the newly read frame. -/
theorem c10_callback_exception_propagates (c : VideoCapturer) (cp cp' : Cap)
    (cb : Frame → Option Unit) (f : Frame)
    (hr : c.is_running = true) (hc : c.cap = some cp)
    (hcb : c.frame_callback = some cb)
    (hread : Cap.read cp = (some f, cp'))
    (hraise : cb f = none) :
    VideoCapturer.read c =
      .error ({ c with cap := some cp', _current_frame := some f }, [f]) ∧
    ({ c with cap := some cp', _current_frame := some f } : VideoCapturer)._current_frame = some f := by
  refine ⟨?_, rfl⟩
  unfold VideoCapturer.read
  rw [hr]
  simp only [Bool.not_true, Bool.false_eq_true, if_false]
  rw [hc]
  simp only [hread, hcb, hraise]

/-- Witness for C10: the running dummy capturer with a raising callback. -/
theorem c10_witness :
    VideoCapturer.read cRaise =
      .error ({ cRaise with
        cap := some (Cap.dummy { width := 4, height := 3, is_open := true })
        _current_frame := some (npZeros 3 4) }, [npZeros 3 4]) :=
  (c10_callback_exception_propagates cRaise
    (Cap.dummy { width := 4, height := 3, is_open := true })
    (Cap.dummy { width := 4, height := 3, is_open := true })
    (fun _ => none) (npZeros 3 4) rfl rfl rfl rfl rfl).1

lemma isZeroFrame_npZeros (h w : Nat) : IsZeroFrame h w (npZeros h w) := by
  refine ⟨by simp [npZeros], ?_⟩
  intro row hrow
  rw [List.eq_of_mem_replicate hrow]
  refine ⟨by simp, ?_⟩
  intro px hpx
  rw [List.eq_of_mem_replicate hpx]
  refine ⟨by simp, ?_⟩
  intro v hv
  rw [List.eq_of_mem_replicate hv]
  exact ⟨rfl, by norm_num⟩

lemma probeLoop_all_fail (env : Env) :
    ∀ (l : List (Int × Backend)) (cap0 : Option Cap),
      (∀ ib ∈ l, probeFails env ib) →
      (∀ cp, cap0 = some cp → cp.isOpened = false) →
      ∀ cp, probeLoop env l cap0 = some cp → cp.isOpened = false := by
  intro l
  induction l with
  | nil =>
    intro cap0 _ h0 cp hcp
    exact h0 cp hcp
  | cons ib rest ih =>
    intro cap0 hfail h0 cp hcp
    obtain ⟨i, b⟩ := ib
    have hf : probeFails env (i, b) := hfail (i, b) (List.mem_cons_self _ _)
    have htail : ∀ x ∈ rest, probeFails env x :=
      fun x hx => hfail x (List.mem_cons_of_mem _ hx)
    rcases hoc : env.openCam i b with e | rc
    · simp only [probeLoop, hoc] at hcp
      exact ih cap0 htail h0 cp hcp
    · have hop : rc.opened = false := by
        unfold probeFails at hf
        rw [hoc] at hf
        exact hf
      simp only [probeLoop, hoc, hop] at hcp
      refine ih _ htail ?_ cp hcp
      intro x hx
      cases hx
      rfl

lemma start_installs_dummy (env : Env) (c : VideoCapturer) (w h fps : Nat)
    (hfail : ∀ ib ∈ captureMethods env.platform c.device_index, probeFails env ib)
    (hcap : c.cap = none) :
    VideoCapturer.start env c w h fps =
      (true, { c with
        cap := some (Cap.dummy { width := w, height := h, is_open := true })
        is_running := true }) := by
  have hun := probeLoop_all_fail env
    (captureMethods env.platform c.device_index) none hfail
    (fun cp hcp => by cases hcp)
  unfold VideoCapturer.start
  rw [hcap]
  rcases hres : probeLoop env (captureMethods env.platform c.device_index) none
    with _ | cp
  · rfl
  · have hop := hun cp hres
    simp only [hop, Bool.false_eq_true, if_false, Cap.set]

lemma dummy_read_step (c : VideoCapturer) (w h : Nat)
    (hr : c.is_running = true)
    (hc : c.cap = some (Cap.dummy { width := w, height := h, is_open := true }))
    (hcb : c.frame_callback = none) :
    VideoCapturer.read c =
      .ok ((true, some (npZeros h w)),
        { c with
            cap := some (Cap.dummy { width := w, height := h, is_open := true })
            _current_frame := some (npZeros h w) }, []) := by
  unfold VideoCapturer.read
  rw [hr]
  simp only [Bool.not_true, Bool.false_eq_true, if_false]
  rw [hc]
  simp [Cap.read, DummyCamera.read, hcb]

lemma dummy_readTrace_black (w h : Nat) :
    ∀ (n : Nat) (c : VideoCapturer),
      c.is_running = true →
      c.cap = some (Cap.dummy { width := w, height := h, is_open := true }) →
      c.frame_callback = none →
      (readTrace n c).map Prod.fst =
        some (List.replicate n (true, some (npZeros h w))) := by
  intro n
  induction n with
  | zero =>
    intro c _ _ _
    rfl
  | succ k ih =>
    intro c hr hc hcb
    rw [readTrace, dummy_read_step c w h hr hc hcb]
    have ih2 := ih
      { c with
          cap := some (Cap.dummy { width := w, height := h, is_open := true })
          _current_frame := some (npZeros h w) }
      hr rfl hcb
    rcases hres : readTrace k
      { c with
          cap := some (Cap.dummy { width := w, height := h, is_open := true })
          _current_frame := some (npZeros h w) }
      with _ | ⟨rs, cfin⟩
    · rw [hres] at ih2
      simp at ih2
    · rw [hres] at ih2
      simp at ih2
      simp [hres, List.replicate_succ, ih2]

/-- Claim C1: when every probe candidate fails (throws or yields an
unopened handle), `start` on a freshly constructed capturer still returns
`True`, installs a dummy source sized to the requested width and height,
and every one of n subsequent `read()` calls returns `(True, frame)` with
`frame` the all-zero height x width x 3 buffer of 8-bit channels. -/
theorem c1_degrades_to_black_frames (env : Env) (c : VideoCapturer)
    (width height fps : Nat)
    (hfail : ∀ ib ∈ captureMethods env.platform c.device_index, probeFails env ib)
    (hcap : c.cap = none) (hcb : c.frame_callback = none) :
    (VideoCapturer.start env c width height fps).1 = true ∧
    (VideoCapturer.start env c width height fps).2.cap =
      some (Cap.dummy { width := width, height := height, is_open := true }) ∧
    IsZeroFrame height width (npZeros height width) ∧
    ∀ n : Nat,
      (readTrace n (VideoCapturer.start env c width height fps).2).map Prod.fst =
        some (List.replicate n (true, some (npZeros height width))) := by
  have hst := start_installs_dummy env c width height fps hfail hcap
  refine ⟨by rw [hst], by rw [hst], isZeroFrame_npZeros height width, ?_⟩
  intro n
  rw [hst]
  exact dummy_readTrace_black width height n _ rfl rfl hcb

/-- Witness for C1: a host where every cv2 constructor call throws; after
`start(4, 3, 60)` the first two reads both return the 3 x 4 black frame. -/
theorem c1_witness :
    (VideoCapturer.start envNoCam cW 4 3 60).1 = true ∧
    (readTrace 2 (VideoCapturer.start envNoCam cW 4 3 60).2).map Prod.fst =
      some (List.replicate 2 (true, some (npZeros 3 4))) :=
  ⟨(c1_degrades_to_black_frames envNoCam cW 4 3 60
      (fun _ _ => trivial) rfl rfl).1,
   (c1_degrades_to_black_frames envNoCam cW 4 3 60
      (fun _ _ => trivial) rfl rfl).2.2.2 2⟩

lemma ok_state_eq {A r : Bool × Option Frame} {s c' : VideoCapturer}
    {l log : List Frame}
    (h : (Except.ok (A, s, l) :
        Except (VideoCapturer × List Frame)
          ((Bool × Option Frame) × VideoCapturer × List Frame)) =
      .ok (r, c', log)) : s = c' := by
  injection h with hh
  exact congrArg (fun t => t.2.1) hh

lemma error_state_eq {s c' : VideoCapturer} {l log : List Frame}
    (h : (Except.error (s, l) :
        Except (VideoCapturer × List Frame)
          ((Bool × Option Frame) × VideoCapturer × List Frame)) =
      .error (c', log)) : s = c' := by
  injection h with hh
  exact congrArg Prod.fst hh

lemma init_ok_state (env : Env) (i : Int) (c : VideoCapturer)
    (hinit : VideoCapturer.init env i = .ok c) : c = freshCapturer i := by
  unfold VideoCapturer.init at hinit
  unfold freshCapturer
  split at hinit
  · split at hinit
    · exact absurd hinit (by simp)
    · injection hinit with h
      exact h.symm
  · injection hinit with h
    exact h.symm

/-- Claim C9: in every reachable state, a running capturer holds a
handle, so its `read` never dereferences a missing one. -/
theorem c9_running_implies_handle (c : VideoCapturer) (hreach : Reachable c) :
    c.is_running = true → c.cap ≠ none := by
  induction hreach with
  | construct env i c0 hinit =>
    rw [init_ok_state env i c0 hinit]
    intro h
    exact absurd h (by simp [freshCapturer])
  | start env w h fps c0 _ _ =>
    intro _ hcontra
    exact Option.noConfusion hcontra
  | read_ok c0 c' r log _ hread ih =>
    unfold VideoCapturer.read at hread
    split at hread
    · rw [← ok_state_eq hread]
      exact ih
    · split at hread
      · rw [← ok_state_eq hread]
        exact ih
      · split at hread
        · split at hread
          · rw [← ok_state_eq hread]
            intro _
            simp
          · split at hread
            · rw [← ok_state_eq hread]
              intro _
              simp
            · exact absurd hread (by simp)
        · rw [← ok_state_eq hread]
          intro _
          simp
  | read_raise c0 c' log _ hread ih =>
    unfold VideoCapturer.read at hread
    split at hread
    · exact absurd hread (by simp)
    · split at hread
      · exact absurd hread (by simp)
      · split at hread
        · split at hread
          · exact absurd hread (by simp)
          · split at hread
            · exact absurd hread (by simp)
            · rw [← error_state_eq hread]
              intro _
              simp
        · exact absurd hread (by simp)
  | release c0 _ ih =>
    obtain ⟨di, fcb, cf, runb, capo⟩ := c0
    cases runb with
    | false => exact ih
    | true =>
      cases capo with
      | none => exact ih
      | some cp =>
        intro h
        exact absurd h (by simp [VideoCapturer.release])
  | set_cb c0 cb _ ih =>
    exact ih

/-- Witness for C9: the state reached by constructing on a camera-less
host and starting holds a handle while running. -/
theorem c9_witness : (VideoCapturer.start envNoCam cW 4 3 60).2.cap ≠ none :=
  c9_running_implies_handle _
    (Reachable.start envNoCam 4 3 60 cW (Reachable.construct envNoCam 0 cW rfl))
    rfl

end VideoCapture
